import Mathlib

/-!
Verification of the agent-spending guardrail engine of VetoMCP
(`src/tools/agent_guard_rails.py`), shallowly embedded in Lean.

Modelling conventions:
- Python floats (amounts, limits, timestamps) are modelled as `ℚ`;
  timestamps are rational seconds, so `timedelta(days=1)` is `86400`.
- Database tables are lists of row structures; the supabase query chain
  (`.eq`, `.gte`, `select`) becomes successive `List.filter`s.
- The interpolated dollar values inside the human-readable reason strings
  are abstracted away (the fixed skeleton of each message is kept); no
  claim depends on those interpolations.
-/

namespace VetoGuardRails

/-- Modelled from the spec: the `AuthorizationStatus` enum is imported by
`agent_guard_rails.py` from `models`, but the agent section of `models.py`
is not among the sources.  The spec fixes the wire values: "Status wire
values (exact, case-sensitive): APPROVED, DENIED, CAUTION,
REQUIRES_HUMAN_APPROVAL, ERROR". -/
inductive AuthorizationStatus where
  | APPROVED
  | DENIED
  | CAUTION
  | REQUIRES_HUMAN_APPROVAL
  | ERROR
deriving DecidableEq, Repr

/-- The `.value` of each enum member, i.e. its wire string. -/
def status_value : AuthorizationStatus → String
  | .APPROVED => "APPROVED"
  | .DENIED => "DENIED"
  | .CAUTION => "CAUTION"
  | .REQUIRES_HUMAN_APPROVAL => "REQUIRES_HUMAN_APPROVAL"
  | .ERROR => "ERROR"

/-- Modelled from the spec: the `RiskLevel` enum is likewise imported from
the missing agent section of `models`; the spec names the levels LOW,
MEDIUM, HIGH, CRITICAL. -/
inductive RiskLevel where
  | LOW
  | MEDIUM
  | HIGH
  | CRITICAL
deriving DecidableEq, Repr

/-- Per-principal policy settings (`AgentSettingsPublic`).  The field list
follows the row built in `create_agent_settings`; the category fields are
optional lists per the spec data model ("allowedCategories (optional set),
blockedCategories (optional set)"). -/
structure AgentSettings where
  single_transaction_limit : ℚ
  daily_limit : ℚ
  weekly_limit : ℚ
  monthly_limit : ℚ
  require_approval_above : ℚ
  allowed_categories : Option (List String)
  blocked_categories : Option (List String)
  is_active : Bool
deriving DecidableEq, Repr

/-- Modelled from the spec: the defaults of `AgentSettingsCreate` live in
the missing agent section of `models`; the spec gives "Defaults on first
access: single=50, daily=100, weekly=500, monthly=2000,
requireApprovalAbove=100, active=true", and `create_agent_settings` stores
`"[]"` for absent blocked categories. -/
def default_settings : AgentSettings :=
  { single_transaction_limit := 50
    daily_limit := 100
    weekly_limit := 500
    monthly_limit := 2000
    require_approval_above := 100
    allowed_categories := none
    blocked_categories := some []
    is_active := true }

/-- A row of `veto_agent_authorization_log`, as built by
`log_authorization`. -/
structure AuthorizationRecord where
  user_id : String
  amount : ℚ
  category : Option String
  status : AuthorizationStatus
  reason : Option String
  was_executed : Bool
  created_at : ℚ
deriving DecidableEq, Repr

/-! ### The five policy checks of `authorize_purchase` (lines 241-263) -/

/-- `if settings.blocked_categories and category in settings.blocked_categories`:
Python truthiness makes `None` and `[]` both skip the check. -/
def blocked_check (s : AgentSettings) (category : String) : Bool :=
  match s.blocked_categories with
  | some l => decide (l ≠ [] ∧ category ∈ l)
  | none => false

/-- `if settings.allowed_categories and category not in settings.allowed_categories`. -/
def allowed_check (s : AgentSettings) (category : String) : Bool :=
  match s.allowed_categories with
  | some l => decide (l ≠ [] ∧ category ∉ l)
  | none => false

/-- The nested single-transaction test: outside the limit it returns the
escalated status (`DENIED` past limit×1.5, else `CAUTION`), inside it fires
nothing. -/
def single_check (limit amount : ℚ) : Option AuthorizationStatus :=
  if amount > limit then
    some (if amount > limit * (3 / 2) then .DENIED else .CAUTION)
  else
    none

/-- `if (daily_spend + amount) > settings.daily_limit`. -/
def daily_check (limit daily_spend amount : ℚ) : Bool :=
  daily_spend + amount > limit

/-- `if amount >= settings.require_approval_above`. -/
def approval_check (threshold amount : ℚ) : Bool :=
  amount ≥ threshold

/-- The check sequence of `authorize_purchase`: `status` starts APPROVED
and is overwritten by each firing check in program order, while the firing
check appends its reason. -/
def run_checks (s : AgentSettings) (daily_spend : ℚ) (category : String)
    (amount : ℚ) : AuthorizationStatus × List String :=
  let acc0 : AuthorizationStatus × List String := (.APPROVED, [])
  let acc1 := if blocked_check s category then
      ((.DENIED : AuthorizationStatus), acc0.2 ++ ["Category is blocked."])
    else acc0
  let acc2 := if allowed_check s category then
      ((.DENIED : AuthorizationStatus), acc1.2 ++ ["Category is not in allowed list."])
    else acc1
  let acc3 := match single_check s.single_transaction_limit amount with
    | some st => (st, acc2.2 ++ ["Amount exceeds single transaction limit."])
    | none => acc2
  let acc4 := if daily_check s.daily_limit daily_spend amount then
      ((.DENIED : AuthorizationStatus), acc3.2 ++ ["Daily limit exceeded."])
    else acc3
  let acc5 := if approval_check s.require_approval_above amount then
      ((.REQUIRES_HUMAN_APPROVAL : AuthorizationStatus),
        acc4.2 ++ ["Amount requires human approval."])
    else acc4
  acc5

/-- The ephemeral decision returned by `authorize_purchase` (the JSON
payload of the success branch). -/
structure Decision where
  status : AuthorizationStatus
  reasons : List String
  remaining_daily : ℚ
  remaining_weekly : ℚ
deriving DecidableEq, Repr

/-- Core of `authorize_purchase` after the reads: run the checks, build the
audit row exactly as `log_authorization` stores it (`was_executed := false`,
reason `"Within budget limits"` when no check fired), and build the
response, whose remaining amounts subtract only the pre-decision spend. -/
def authorize_purchase (now : ℚ) (s : AgentSettings)
    (daily_spend weekly_spend : ℚ) (user_id category : String)
    (amount : ℚ) : Decision × AuthorizationRecord :=
  let res := run_checks s daily_spend category amount
  let row : AuthorizationRecord :=
    { user_id := user_id
      amount := amount
      category := some category
      status := res.1
      reason := some (if res.2 = [] then "Within budget limits"
        else String.intercalate "; " res.2)
      was_executed := false
      created_at := now }
  ({ status := res.1
     reasons := res.2
     remaining_daily := s.daily_limit - daily_spend
     remaining_weekly := s.weekly_limit - weekly_spend }, row)

/-- Claim-side reformulation of the status actually computed by
`authorize_purchase`: since each firing check overwrites `status`, the final
status is the one assigned by the LAST firing check in program order
(blocked, allowed, single-transaction, daily, human-approval), `APPROVED`
when none fires. -/
def last_fired_status (s : AgentSettings) (daily_spend : ℚ) (category : String)
    (amount : ℚ) : AuthorizationStatus :=
  if approval_check s.require_approval_above amount then .REQUIRES_HUMAN_APPROVAL
  else if daily_check s.daily_limit daily_spend amount then .DENIED
  else
    match single_check s.single_transaction_limit amount with
    | some st => st
    | none =>
      if allowed_check s category then .DENIED
      else if blocked_check s category then .DENIED
      else .APPROVED

/-- C1 (counterexample): under default settings with amount 100 the
single-transaction check fires DENIED (100 > 75), yet the final status is
REQUIRES_HUMAN_APPROVAL, because the human-approval check runs last and
overwrites it — the claimed max-severity combination does not hold. -/
theorem run_checks_not_max_severity_cex :
    single_check default_settings.single_transaction_limit 100 =
      some AuthorizationStatus.DENIED
    ∧ (run_checks default_settings 0 "General" 100).1 =
      AuthorizationStatus.REQUIRES_HUMAN_APPROVAL
    ∧ AuthorizationStatus.REQUIRES_HUMAN_APPROVAL ≠ AuthorizationStatus.DENIED := by
  refine ⟨by norm_num [single_check, default_settings], ?_, by simp⟩
  norm_num [run_checks, single_check, daily_check, approval_check,
    blocked_check, allowed_check, default_settings]

/-- C1 (amended): all checks are evaluated with no short-circuit, but the
final status is that of the last firing check in program order rather than
the maximum severity; in particular under default settings an action with
amount 100 returns REQUIRES_HUMAN_APPROVAL, not DENIED. -/
theorem run_checks_status_eq_last_fired :
    (∀ (s : AgentSettings) (d : ℚ) (c : String) (a : ℚ),
      (run_checks s d c a).1 = last_fired_status s d c a)
    ∧ (run_checks default_settings 0 "General" 100).1 =
      AuthorizationStatus.REQUIRES_HUMAN_APPROVAL := by
  constructor
  · intro s d c a
    unfold run_checks last_fired_status
    rcases hs : single_check s.single_transaction_limit a with _ | st <;>
      by_cases h1 : blocked_check s c <;>
      by_cases h2 : allowed_check s c <;>
      by_cases h3 : daily_check s.daily_limit d a <;>
      by_cases h4 : approval_check s.require_approval_above a <;>
      simp [hs, h1, h2, h3, h4]
  · norm_num [run_checks, single_check, daily_check, approval_check,
      blocked_check, allowed_check, default_settings]

/-- C2 (counterexample): with singleTransactionLimit = 0 an amount equal to
limit×1.5 (namely 0) fires nothing, refuting "amount == limit×1.5 exactly
triggers CAUTION" as claimed for every settings value. -/
theorem single_check_boundary_cex :
    single_check 0 (0 * (3 / 2)) = none := by
  norm_num [single_check]

/-- C2 (amended): for a positive single-transaction limit the comparisons
are strict as claimed: amount == limit fires nothing; amount == limit×1.5
fires CAUTION, not DENIED; DENIED fires exactly when amount > limit×1.5;
and limit < amount ≤ limit×1.5 fires CAUTION. -/
theorem single_check_boundaries (L a : ℚ) (hL : 0 < L) :
    single_check L L = none
    ∧ single_check L (L * (3 / 2)) = some AuthorizationStatus.CAUTION
    ∧ (single_check L a = some AuthorizationStatus.DENIED ↔ a > L * (3 / 2))
    ∧ (L < a → a ≤ L * (3 / 2) → single_check L a = some AuthorizationStatus.CAUTION) := by
  refine ⟨?_, ?_, ?_, ?_⟩
  · simp [single_check]
  · have h1 : L * (3 / 2) > L := by linarith
    have h2 : ¬ L * (3 / 2) > L * (3 / 2) := by linarith
    simp [single_check, h1, h2]
  · unfold single_check
    split_ifs with h1 h2
    · simp [h2]
    · simp
      linarith
    · simp
      linarith
  · intro h1 h2
    have h3 : ¬ a > L * (3 / 2) := by linarith
    simp [single_check, h1, h3]

/-- Witness for `single_check_boundaries` at limit 50: amount 50 fires
nothing and amount 75 = 50×1.5 fires CAUTION. -/
theorem single_check_boundaries_witness :
    single_check 50 50 = none
    ∧ single_check 50 (50 * (3 / 2)) = some AuthorizationStatus.CAUTION :=
  ⟨(single_check_boundaries 50 75 (by norm_num)).1,
   (single_check_boundaries 50 75 (by norm_num)).2.1⟩

/-- C3: the rolling daily ceiling is strict: it fires iff
dailySpend + amount > dailyLimit; equality does not fire, exceeding the
limit by 0.01 does. -/
theorem daily_check_strict (L d a : ℚ) :
    (daily_check L d a = true ↔ d + a > L)
    ∧ (d + a = L → daily_check L d a = false)
    ∧ (d + a = L + 1 / 100 → daily_check L d a = true) := by
  refine ⟨by simp [daily_check], ?_, ?_⟩
  · intro h
    simp [daily_check, h]
  · intro h
    simp [daily_check, h]

/-- Witness for `daily_check_strict`: prior spend 60 plus amount 40 equals
the default daily limit 100 and the check does not fire. -/
theorem daily_check_strict_witness : daily_check 100 60 40 = false :=
  (daily_check_strict 100 60 40).2.1 (by norm_num)

/-- C5 (counterexample): under default settings (daily limit 100) with no
prior spend and amount 40, the returned remaining_daily is 100 — the
daily limit minus the pre-decision spend — not 60 as claimed. -/
theorem authorize_default_40_cex :
    (authorize_purchase 0 default_settings 0 0 "u" "General" 40).1.remaining_daily = 100
    ∧ (100 : ℚ) ≠ 60 := by
  constructor
  · norm_num [authorize_purchase, run_checks, single_check, daily_check,
      approval_check, blocked_check, allowed_check, default_settings]
  · norm_num

/-- C5 (amended): under default settings with no prior spend, amount 40
fires no check: the response has status APPROVED with an empty reasons
list and remaining_daily = 100 (limit minus pre-decision spend), and the
logged record carries reason "Within budget limits" with
was_executed = false, so it does not reduce future spend aggregation. -/
theorem authorize_default_40 :
    (authorize_purchase 0 default_settings 0 0 "u" "General" 40).1 =
      { status := .APPROVED, reasons := [], remaining_daily := 100,
        remaining_weekly := 500 }
    ∧ (authorize_purchase 0 default_settings 0 0 "u" "General" 40).2.reason =
      some "Within budget limits"
    ∧ (authorize_purchase 0 default_settings 0 0 "u" "General" 40).2.was_executed = false := by
  norm_num [authorize_purchase, run_checks, single_check, daily_check,
    approval_check, blocked_check, allowed_check, default_settings]

/-! ### Spend aggregation (`get_cumulative_agent_spend`, lines 182-209) -/

/-- The trailing duration, in seconds, behind the `timedelta` chosen for
each period string: 1 day for "daily", 1 week for "weekly", 30 days for
"monthly", and 1 day for any other string. -/
def window_seconds (period : String) : ℚ :=
  if period = "daily" then 86400
  else if period = "weekly" then 7 * 86400
  else if period = "monthly" then 30 * 86400
  else 86400

/-- `get_cumulative_agent_spend`: the window start is `now` minus the
period duration; the supabase query chain filters by user, status
APPROVED, executed flag and `created_at >= start`, then the amounts are
summed. -/
def get_cumulative_agent_spend (now : ℚ) (table : List AuthorizationRecord)
    (user_id : String) (period : String) : ℚ :=
  let start_time := now - window_seconds period
  (((((table.filter (fun r => r.user_id = user_id)).filter
      (fun r => r.status = .APPROVED)).filter
      (fun r => r.was_executed = true)).filter
      (fun r => start_time ≤ r.created_at)).map
      (fun r => r.amount)).sum

/-- Spec-side characterization of the aggregate: the sum of the amounts of
exactly those records of the principal with status APPROVED, executed, and
created within the trailing window of the given duration back from now. -/
def window_spend_spec (now : ℚ) (table : List AuthorizationRecord)
    (user_id : String) (dur : ℚ) : ℚ :=
  ((table.filter (fun r => r.user_id = user_id ∧ r.status = .APPROVED
      ∧ r.was_executed = true ∧ now - dur ≤ r.created_at)).map
      (fun r => r.amount)).sum

theorem filter_chain_eq (uid : String) (start : ℚ)
    (table : List AuthorizationRecord) :
    (((table.filter (fun r => r.user_id = uid)).filter
      (fun r => r.status = .APPROVED)).filter
      (fun r => r.was_executed = true)).filter
      (fun r => start ≤ r.created_at)
    = table.filter (fun r => r.user_id = uid ∧ r.status = .APPROVED
        ∧ r.was_executed = true ∧ start ≤ r.created_at) := by
  simp only [List.filter_filter]
  apply List.filter_congr
  intro a _
  by_cases h1 : a.user_id = uid <;> by_cases h2 : a.status = .APPROVED <;>
    by_cases h3 : a.was_executed = true <;> by_cases h4 : start ≤ a.created_at <;>
    simp [h1, h2, h3, h4]

theorem cumulative_eq_window (now : ℚ) (table : List AuthorizationRecord)
    (uid period : String) :
    get_cumulative_agent_spend now table uid period =
      window_spend_spec now table uid (window_seconds period) := by
  simp only [get_cumulative_agent_spend, window_spend_spec]
  rw [filter_chain_eq]

/-- C4: for each named period the aggregate equals the spec-side windowed
sum (24h / 7d / 30d trailing), and a record whose status is not APPROVED —
for instance a large DENIED record — never changes the aggregate. -/
theorem get_cumulative_agent_spend_spec (now : ℚ)
    (table : List AuthorizationRecord) (uid : String) :
    get_cumulative_agent_spend now table uid "daily" =
      window_spend_spec now table uid 86400
    ∧ get_cumulative_agent_spend now table uid "weekly" =
      window_spend_spec now table uid (7 * 86400)
    ∧ get_cumulative_agent_spend now table uid "monthly" =
      window_spend_spec now table uid (30 * 86400)
    ∧ ∀ (r : AuthorizationRecord) (period : String),
        r.status ≠ AuthorizationStatus.APPROVED →
        get_cumulative_agent_spend now (r :: table) uid period =
          get_cumulative_agent_spend now table uid period := by
  refine ⟨?_, ?_, ?_, ?_⟩
  · rw [cumulative_eq_window]
    norm_num [window_seconds]
  · rw [cumulative_eq_window]
    unfold window_seconds
    rw [if_neg (by decide : ¬ ("weekly" = "daily")), if_pos rfl]
  · rw [cumulative_eq_window]
    unfold window_seconds
    rw [if_neg (by decide : ¬ ("monthly" = "daily")),
      if_neg (by decide : ¬ ("monthly" = "weekly")), if_pos rfl]
  · intro r period hr
    by_cases h1 : r.user_id = uid <;>
      simp [get_cumulative_agent_spend, List.filter_cons, h1, hr]

/-- Witness for `get_cumulative_agent_spend_spec`: prepending an executed
DENIED record of amount 999 leaves the daily aggregate unchanged. -/
theorem get_cumulative_agent_spend_spec_witness :
    get_cumulative_agent_spend 100000
      ({ user_id := "u", amount := 999, category := none,
         status := .DENIED, reason := none, was_executed := true,
         created_at := 99999 } :: []) "u" "daily"
    = get_cumulative_agent_spend 100000 [] "u" "daily" :=
  (get_cumulative_agent_spend_spec 100000 [] "u").2.2.2 _ "daily" (by decide)

/-! ### Settings update (`update_agent_settings`, lines 97-131) -/

/-- A row of `veto_agent_settings` as stored by `create_agent_settings`. -/
structure AgentSettingsRow where
  id : String
  user_id : String
  single_transaction_limit : ℚ
  daily_limit : ℚ
  weekly_limit : ℚ
  monthly_limit : ℚ
  require_approval_above : ℚ
  allowed_categories : Option (List String)
  blocked_categories : Option (List String)
  is_active : Bool
  created_at : ℚ
  updated_at : ℚ
deriving DecidableEq, Repr

/-- The partial update payload (`AgentSettingsUpdate`); the field list is
taken from the fields `update_agent_settings` reads off it. -/
structure AgentSettingsUpdate where
  single_transaction_limit : Option ℚ := none
  daily_limit : Option ℚ := none
  weekly_limit : Option ℚ := none
  monthly_limit : Option ℚ := none
  require_approval_above : Option ℚ := none
  allowed_categories : Option (List String) := none
  blocked_categories : Option (List String) := none
  is_active : Option Bool := none
deriving DecidableEq, Repr

/-- The update payload that supplies no field at all. -/
def empty_update : AgentSettingsUpdate := {}

/-- The row produced by `update_agent_settings` for a matching row: the
update dict always carries `updated_at` and otherwise only the supplied
fields, so every unsupplied column keeps its stored value. -/
def apply_settings_update (now : ℚ) (data : AgentSettingsUpdate)
    (r : AgentSettingsRow) : AgentSettingsRow :=
  { r with
    updated_at := now
    single_transaction_limit := data.single_transaction_limit.getD r.single_transaction_limit
    daily_limit := data.daily_limit.getD r.daily_limit
    weekly_limit := data.weekly_limit.getD r.weekly_limit
    monthly_limit := data.monthly_limit.getD r.monthly_limit
    require_approval_above := data.require_approval_above.getD r.require_approval_above
    allowed_categories := match data.allowed_categories with
      | some v => some v
      | none => r.allowed_categories
    blocked_categories := match data.blocked_categories with
      | some v => some v
      | none => r.blocked_categories
    is_active := data.is_active.getD r.is_active }

/-- `update_agent_settings`: the update is applied to every row whose
`user_id` matches; the call returns the first updated row, or `none` when
no row matched (`result.data` empty). -/
def update_agent_settings (now : ℚ) (table : List AgentSettingsRow)
    (user_id : String) (data : AgentSettingsUpdate) :
    Option AgentSettingsRow × List AgentSettingsRow :=
  let newTable := table.map (fun r =>
    if r.user_id = user_id then apply_settings_update now data r else r)
  ((newTable.filter (fun r => r.user_id = user_id)).head?, newTable)

/-- C6: an update writes exactly the supplied fields plus `updated_at`
(identity, ownership and creation time never change, and every unsupplied
field keeps its stored value); the empty partial changes only `updated_at`;
and an update for a principal with no settings row returns `none` and
leaves the table unchanged. -/
theorem update_agent_settings_frame (now : ℚ) (table : List AgentSettingsRow)
    (uid : String) (data : AgentSettingsUpdate) :
    ((∀ r ∈ table, r.user_id ≠ uid) →
      update_agent_settings now table uid data = (none, table))
    ∧ (∀ r : AgentSettingsRow,
        (apply_settings_update now data r).updated_at = now
        ∧ (apply_settings_update now data r).id = r.id
        ∧ (apply_settings_update now data r).user_id = r.user_id
        ∧ (apply_settings_update now data r).created_at = r.created_at
        ∧ (data.single_transaction_limit = none →
            (apply_settings_update now data r).single_transaction_limit =
              r.single_transaction_limit)
        ∧ (∀ v, data.single_transaction_limit = some v →
            (apply_settings_update now data r).single_transaction_limit = v)
        ∧ (data.daily_limit = none →
            (apply_settings_update now data r).daily_limit = r.daily_limit)
        ∧ (∀ v, data.daily_limit = some v →
            (apply_settings_update now data r).daily_limit = v)
        ∧ (data.weekly_limit = none →
            (apply_settings_update now data r).weekly_limit = r.weekly_limit)
        ∧ (∀ v, data.weekly_limit = some v →
            (apply_settings_update now data r).weekly_limit = v)
        ∧ (data.monthly_limit = none →
            (apply_settings_update now data r).monthly_limit = r.monthly_limit)
        ∧ (∀ v, data.monthly_limit = some v →
            (apply_settings_update now data r).monthly_limit = v)
        ∧ (data.require_approval_above = none →
            (apply_settings_update now data r).require_approval_above =
              r.require_approval_above)
        ∧ (∀ v, data.require_approval_above = some v →
            (apply_settings_update now data r).require_approval_above = v)
        ∧ (data.allowed_categories = none →
            (apply_settings_update now data r).allowed_categories =
              r.allowed_categories)
        ∧ (∀ v, data.allowed_categories = some v →
            (apply_settings_update now data r).allowed_categories = some v)
        ∧ (data.blocked_categories = none →
            (apply_settings_update now data r).blocked_categories =
              r.blocked_categories)
        ∧ (∀ v, data.blocked_categories = some v →
            (apply_settings_update now data r).blocked_categories = some v)
        ∧ (data.is_active = none →
            (apply_settings_update now data r).is_active = r.is_active)
        ∧ (∀ v, data.is_active = some v →
            (apply_settings_update now data r).is_active = v))
    ∧ (∀ r : AgentSettingsRow,
        apply_settings_update now empty_update r = { r with updated_at := now })
    ∧ (update_agent_settings now table uid data).2 = table.map (fun r =>
        if r.user_id = uid then apply_settings_update now data r else r) := by
  refine ⟨?_, ?_, ?_, rfl⟩
  · intro h
    have hmap : table.map (fun r =>
        if r.user_id = uid then apply_settings_update now data r else r) = table := by
      induction table with
      | nil => rfl
      | cons r t ih =>
        have hr : r.user_id ≠ uid := h r (List.mem_cons_self r t)
        simp only [List.map_cons, if_neg hr, List.cons.injEq, true_and]
        exact ih (fun x hx => h x (List.mem_cons_of_mem r hx))
    have hfil : table.filter (fun r => r.user_id = uid) = [] := by
      rw [List.filter_eq_nil_iff]
      intro a ha
      simp [h a ha]
    simp only [update_agent_settings, hmap, hfil, List.head?_nil]
  · intro r
    refine ⟨rfl, rfl, rfl, rfl, ?_, ?_, ?_, ?_, ?_, ?_, ?_, ?_, ?_, ?_, ?_, ?_,
      ?_, ?_, ?_, ?_⟩ <;>
      first
        | (intro h
           simp [apply_settings_update, h])
        | (intro v h
           simp [apply_settings_update, h])
  · intro r
    simp [apply_settings_update, empty_update]

/-- Witness for `update_agent_settings_frame`: updating settings for a
principal with no row returns `none` and leaves the (empty) table as is. -/
theorem update_agent_settings_frame_witness :
    update_agent_settings 5 [] "u" empty_update = (none, []) :=
  (update_agent_settings_frame 5 [] "u" empty_update).1 (by simp)

/-! ### Logging entry point (`log_agent_authorization`, lines 435-466) -/

/-- Model of Python `str.upper()` (character-wise uppercasing; the five
wire values are pure ASCII, where the two agree). -/
def upper (s : String) : String := ⟨s.data.map Char.toUpper⟩

/-- The status parse of the logging entry point:
`AuthorizationStatus(status.upper())` wrapped in a bare `except` that
substitutes `ERROR`.  A string whose uppercasing is none of the five wire
values therefore comes out as `ERROR`. -/
def parse_status (s : String) : AuthorizationStatus :=
  let u := upper s
  if u = "APPROVED" then .APPROVED
  else if u = "DENIED" then .DENIED
  else if u = "CAUTION" then .CAUTION
  else if u = "REQUIRES_HUMAN_APPROVAL" then .REQUIRES_HUMAN_APPROVAL
  else if u = "ERROR" then .ERROR
  else .ERROR

/-- `log_agent_authorization`: parse (or coerce) the status, then append
the record via `log_authorization` (`was_executed := false`) and report
success. -/
def log_agent_authorization (now : ℚ) (table : List AuthorizationRecord)
    (user_id : String) (amount : ℚ) (statusStr : String)
    (category reason : Option String) : Bool × List AuthorizationRecord :=
  (true, table ++ [{ user_id := user_id
                     amount := amount
                     category := category
                     status := parse_status statusStr
                     reason := reason
                     was_executed := false
                     created_at := now }])

/-- C7: a status string that does not uppercase to one of the five
AuthorizationStatus wire values is silently coerced to ERROR, and the
record is still appended rather than the call being rejected. -/
theorem log_agent_authorization_coerces (now : ℚ)
    (table : List AuthorizationRecord) (uid : String) (amount : ℚ)
    (s : String) (cat rsn : Option String)
    (h : upper s ∉ ["APPROVED", "DENIED", "CAUTION",
      "REQUIRES_HUMAN_APPROVAL", "ERROR"]) :
    parse_status s = AuthorizationStatus.ERROR
    ∧ log_agent_authorization now table uid amount s cat rsn =
      (true, table ++ [{ user_id := uid
                         amount := amount
                         category := cat
                         status := AuthorizationStatus.ERROR
                         reason := rsn
                         was_executed := false
                         created_at := now }]) := by
  simp only [List.mem_cons, List.not_mem_nil, or_false, not_or] at h
  obtain ⟨h1, h2, h3, h4, h5⟩ := h
  have hp : parse_status s = AuthorizationStatus.ERROR := by
    simp [parse_status, h1, h2, h3, h4, h5]
  exact ⟨hp, by simp [log_agent_authorization, hp]⟩

/-- Witness for `log_agent_authorization_coerces` at "bogus". -/
theorem log_agent_authorization_coerces_witness :
    parse_status "bogus" = AuthorizationStatus.ERROR :=
  (log_agent_authorization_coerces 0 [] "u" 1 "bogus" none none (by decide)).1

/-! ### Tool surface error wrapping (`authorize_purchase`, lines 225-287) -/

/-- The ambient storage client as four fallible operations: user
resolution (`get_or_create_user_id`), settings load
(`get_or_create_agent_settings`), spend aggregation and record insert. -/
structure StorageClient where
  ensure_user : String → Except String String
  load_settings : String → Except String AgentSettings
  cumulative_spend : String → String → Except String ℚ
  append_record : AuthorizationRecord → Except String Unit

/-- The body of the `try` block of the `authorize_purchase` tool: resolve
the user, load settings, read the three aggregates, decide, log, and
return the decision.  Each step may fail with an exception message. -/
def authorize_pipeline (c : StorageClient) (now : ℚ)
    (username category : String) (amount : ℚ) : Except String Decision := do
  let uid ← c.ensure_user username
  let s ← c.load_settings uid
  let d ← c.cumulative_spend uid "daily"
  let w ← c.cumulative_spend uid "weekly"
  let _ ← c.cumulative_spend uid "monthly"
  let res := authorize_purchase now s d w uid category amount
  let _ ← c.append_record res.2
  pure res.1

/-- The JSON reply of the tool: the success branch serializes the
decision; the `except` branch returns status "ERROR" with the message. -/
structure ToolReply where
  status : String
  error : Option String
  decision : Option Decision
deriving Repr

/-- The exposed `authorize_purchase` surface: the whole pipeline inside
`try`, any exception converted to an ERROR reply. -/
def authorize_purchase_tool (c : StorageClient) (now : ℚ)
    (username category : String) (amount : ℚ) : ToolReply :=
  match authorize_pipeline c now username category amount with
  | .ok dec => { status := status_value dec.status, error := none,
                 decision := some dec }
  | .error e => { status := "ERROR", error := some e, decision := none }

/-- C8: whenever any step of the pipeline fails with message `e`, the
exposed surface returns a reply with status "ERROR" carrying `e`, instead
of raising. -/
theorem authorize_purchase_tool_error (c : StorageClient) (now : ℚ)
    (username category : String) (amount : ℚ) (e : String)
    (h : authorize_pipeline c now username category amount = .error e) :
    authorize_purchase_tool c now username category amount =
      { status := "ERROR", error := some e, decision := none } := by
  simp [authorize_purchase_tool, h]

/-- A client whose settings load fails with "db down". -/
def failing_client : StorageClient :=
  { ensure_user := fun _ => .ok "uid"
    load_settings := fun _ => .error "db down"
    cumulative_spend := fun _ _ => .ok 0
    append_record := fun _ => .ok () }

/-- Witness for `authorize_purchase_tool_error`: with the failing client
the surface returns status "ERROR" and the failure message. -/
theorem authorize_purchase_tool_error_witness :
    authorize_purchase_tool failing_client 0 "alice" "General" 10 =
      { status := "ERROR", error := some "db down", decision := none } :=
  authorize_purchase_tool_error failing_client 0 "alice" "General" 10 "db down" rfl

/-! ### Risk assessor (`assess_purchase_risk`, lines 307-345) -/

/-- `assess_purchase_risk`: the score accumulates +50 or +20 from the
income ratio bracket (only when monthly_income > 0, higher bracket only)
and +10 when not essential; the level is read off the score by the
sequential thresholds 70 / 50 / 20.  The category, expense and recurring
inputs are accepted but unused, as in the source. -/
def assess_purchase_risk (amount : ℚ) (category : String)
    (monthly_income monthly_expenses : ℚ) (is_recurring is_essential : Bool) :
    ℕ × RiskLevel :=
  let risk_score : ℕ := 0
  let risk_score := if monthly_income > 0 then
      (if amount / monthly_income > 1 / 2 then risk_score + 50
       else if amount / monthly_income > 1 / 10 then risk_score + 20
       else risk_score)
    else risk_score
  let risk_score := if is_essential then risk_score else risk_score + 10
  let risk_level := if risk_score > 70 then RiskLevel.CRITICAL
    else if risk_score > 50 then RiskLevel.HIGH
    else if risk_score > 20 then RiskLevel.MEDIUM
    else RiskLevel.LOW
  (risk_score, risk_level)

/-- C9: for positive monthly income the score is the claimed closed form
(brackets mutually exclusive by the else-chain), it lies within 0-100, and
the level follows the claimed thresholds on the score. -/
theorem assess_purchase_risk_spec (amount : ℚ) (category : String)
    (mi me : ℚ) (ir ie : Bool) (h : 0 < mi) :
    (assess_purchase_risk amount category mi me ir ie).1 =
      (if amount / mi > 1 / 2 then 50
       else if amount / mi > 1 / 10 then 20 else 0)
      + (if ie then 0 else 10)
    ∧ (assess_purchase_risk amount category mi me ir ie).1 ≤ 100
    ∧ (assess_purchase_risk amount category mi me ir ie).2 =
      (if (assess_purchase_risk amount category mi me ir ie).1 > 70 then
        RiskLevel.CRITICAL
       else if (assess_purchase_risk amount category mi me ir ie).1 > 50 then
        RiskLevel.HIGH
       else if (assess_purchase_risk amount category mi me ir ie).1 > 20 then
        RiskLevel.MEDIUM
       else RiskLevel.LOW) := by
  by_cases h1 : amount / mi > 1 / 2 <;> by_cases h2 : amount / mi > 1 / 10 <;>
    cases ie <;>
    simp [assess_purchase_risk, h, h1, h2] <;> split_ifs <;> norm_num

/-- Witness for `assess_purchase_risk_spec`: amount 600 against income
1000 (ratio 0.6 > 0.5), non-essential. -/
theorem assess_purchase_risk_spec_witness :
    (assess_purchase_risk 600 "General" 1000 0 false false).1 =
      (if (600 : ℚ) / 1000 > 1 / 2 then 50
       else if (600 : ℚ) / 1000 > 1 / 10 then 20 else 0)
      + (if false then 0 else 10) :=
  (assess_purchase_risk_spec 600 "General" 1000 0 false false (by norm_num)).1

/-! ### Spend reporting tool (`get_cumulative_agent_spend_tool`, lines 412-432) -/

/-- The JSON payload of `get_cumulative_agent_spend_tool`. -/
structure SpendReport where
  period : String
  spend : ℚ
  limit : ℚ
  remaining : ℚ
deriving DecidableEq, Repr

/-- `get_cumulative_agent_spend_tool`: read the aggregate, pick the limit
for the period (dict lookup with daily as default), and report
`remaining = max(0, limit - spend)`. -/
def get_cumulative_agent_spend_tool (now : ℚ)
    (table : List AuthorizationRecord) (s : AgentSettings)
    (user_id : String) (period : String) : SpendReport :=
  let spend := get_cumulative_agent_spend now table user_id period
  let limit := if period = "daily" then s.daily_limit
    else if period = "weekly" then s.weekly_limit
    else if period = "monthly" then s.monthly_limit
    else s.daily_limit
  { period := period
    spend := spend
    limit := limit
    remaining := max 0 (limit - spend) }

/-- C10: the reported remaining equals max(0, limit - spend), hence is
never negative, and overspend past the limit is reported as 0 rather
than as a negative remainder. -/
theorem spend_tool_remaining_clamped (now : ℚ)
    (table : List AuthorizationRecord) (s : AgentSettings)
    (uid period : String) :
    (get_cumulative_agent_spend_tool now table s uid period).remaining =
      max 0 ((get_cumulative_agent_spend_tool now table s uid period).limit -
        (get_cumulative_agent_spend_tool now table s uid period).spend)
    ∧ 0 ≤ (get_cumulative_agent_spend_tool now table s uid period).remaining
    ∧ ((get_cumulative_agent_spend_tool now table s uid period).limit ≤
        (get_cumulative_agent_spend_tool now table s uid period).spend →
        (get_cumulative_agent_spend_tool now table s uid period).remaining = 0) := by
  refine ⟨rfl, le_max_left _ _, ?_⟩
  intro h
  simp only [get_cumulative_agent_spend_tool] at h ⊢
  exact max_eq_left (by linarith)

/-- Witness for `spend_tool_remaining_clamped`: one executed APPROVED
record of amount 150 against the default daily limit 100 reports
remaining 0. -/
theorem spend_tool_remaining_clamped_witness :
    (get_cumulative_agent_spend_tool 100000
      [{ user_id := "u", amount := 150, category := none,
         status := .APPROVED, reason := none, was_executed := true,
         created_at := 99999 }] default_settings "u" "daily").remaining = 0 :=
  (spend_tool_remaining_clamped 100000 _ default_settings "u" "daily").2.2
    (by norm_num [get_cumulative_agent_spend_tool, get_cumulative_agent_spend,
      window_seconds, default_settings])

end VetoGuardRails
